import Mathlib

/-!
Verification development for the booking-table backend: a shallow embedding
of `src/models/models.py`, `src/postgres_driver.py` and `src/backend.py`,
followed by theorems about the embedded operations.

Modelling conventions:
* UUIDs are modelled as `Nat`; a UUID-typed value that Python may hold as
  `None` (e.g. `exclude_booking_id`, or a booking identifier) is `Option Nat`.
* `datetime` values are integers on a minute-resolution timeline, so that
  `booking_date + timedelta(minutes=d)` is integer addition `booking_date + d`.
* The database content visible through `PostgresDriver` is a `Database`
  record of three row lists (tables `"user"`, `"restaurant_table"`,
  `"booking"`), in insertion (storage) order.
* Python exceptions become `Except` values; the human-readable f-string
  messages of `backend.py` are abstracted to structured constructors that
  carry the same identifying data (`AvailReason`, `BackendError`).
-/

namespace BookingTable

/-- Row of table `"user"`: dataclass `User` of `models.py`. -/
structure User where
  name : String
  phone : String
  email : String
  id : Nat
  created_at : Int
deriving DecidableEq

/-- Row of table `"restaurant_table"`: dataclass `Table` of `models.py`. -/
structure Table where
  number : Int
  capacity : Int
  location : String
  id : Nat
  is_available : Bool
deriving DecidableEq

/-- Row of table `"booking"`: dataclass `Booking` of `models.py`.
`status` is one of the strings `"pending"`, `"confirmed"`, `"cancelled"`;
`id` is `Option Nat` because Python lets the field hold `None`. -/
structure Booking where
  user_id : Nat
  table_id : Nat
  booking_date : Int
  guest_count : Int
  id : Option Nat
  duration_minutes : Int
  status : String
  special_requests : String
  created_at : Int
  updated_at : Int
deriving DecidableEq

/-- The stored state the driver reads and writes: the three row lists. -/
structure Database where
  users : List User
  tables : List Table
  bookings : List Booking
deriving DecidableEq

/-- Errors raised inside `PostgresDriver`. `missingId` is the
`ValueError` of `PostgresDriver.update` when the entity's `id` is `None`;
`noRowReturned` is the failure of `dict(result)` when the `UPDATE ...
RETURNING *` matched no row and `fetchone()` gave `None`. -/
inductive DbError
  | missingId
  | noRowReturned
deriving DecidableEq

/-- Structured form of the `reason` strings built by
`Backend.check_table_availability`: which branch produced the reason, and
for a conflict, the identifying data interpolated into the message. -/
inductive AvailReason
  | tableNotFound
  | tableUnavailable
  | conflict (booking_id : Option Nat) (status : String)
deriving DecidableEq

/-- Errors raised by `Backend` methods: `duplicateName` is the
`ValueError` of `create_user`; `validation` the `ValueError` of
`create_booking` / `update_booking` carrying the availability reason;
`db` wraps a persistence-layer failure. -/
inductive BackendError
  | duplicateName (name : String)
  | validation (reason : Option AvailReason)
  | db (e : DbError)
deriving DecidableEq

/-- Embeds `Backend.get_user_by_name`: `db.read(User, filters=\x7b"name": name\x7d,
limit=1)` — first stored row whose `name` equals `name`, if any. -/
def get_user_by_name (db : Database) (name : String) : Option User :=
  db.users.find? (fun u => u.name == name)

/-- Embeds `Backend.get_table_by_id`: `db.read_by_id(Table, table_id)`, i.e.
`filters=\x7b"id": table_id\x7d, limit=1` — first stored row with that id. -/
def get_table_by_id (db : Database) (table_id : Nat) : Option Table :=
  db.tables.find? (fun t => t.id == table_id)

/-- Embeds `Backend.get_booking_by_id`: `db.read_by_id(Booking, booking_id)`. -/
def get_booking_by_id (db : Database) (booking_id : Nat) : Option Booking :=
  db.bookings.find? (fun b => b.id == some booking_id)

/-- Embeds `Backend.get_bookings_by_table`: `filters=\x7b"table_id": table_id\x7d`
with `ORDER BY booking_date` (`order_by="booking_date"`). -/
def get_bookings_by_table (db : Database) (table_id : Nat) : List Booking :=
  (db.bookings.filter (fun b => b.table_id == table_id)).insertionSort
    (fun a b => a.booking_date ≤ b.booking_date)

/-- The per-candidate test of `check_table_availability`:
`booking_date < existing_end and existing_start < booking_end`, where
`existing_end = existing_start + existing.duration_minutes`. -/
def overlapsB (booking_date booking_end : Int) (b : Booking) : Bool :=
  decide (booking_date < b.booking_date + b.duration_minutes) &&
  decide (b.booking_date < booking_end)

/-- The filter producing `active_bookings` in `check_table_availability`:
`b.status in ("pending", "confirmed") and b.id != exclude_booking_id`. -/
def isActiveExcluding (exclude_booking_id : Option Nat) (b : Booking) : Bool :=
  (b.status == "pending" || b.status == "confirmed") &&
  b.id != exclude_booking_id

/-- Embeds `Backend.check_table_availability` (backend.py lines 505-566), step by
step: missing table and switched-off table fail closed; otherwise the first
active booking of the table (cancelled and `exclude_booking_id` rows
dropped) whose half-open interval overlaps `[booking_date, booking_end)`
yields the failure reason, else the table is available. -/
def check_table_availability (db : Database) (table_id : Nat)
    (booking_date : Int) (duration_minutes : Int)
    (exclude_booking_id : Option Nat) : Bool × Option AvailReason :=
  match get_table_by_id db table_id with
  | none => (false, some .tableNotFound)
  | some table =>
    if !table.is_available then
      (false, some .tableUnavailable)
    else
      let booking_end := booking_date + duration_minutes
      let all_bookings := get_bookings_by_table db table_id
      let active_bookings := all_bookings.filter
        (isActiveExcluding exclude_booking_id)
      match active_bookings.find? (overlapsB booking_date booking_end) with
      | some existing_booking =>
        (false, some (.conflict existing_booking.id existing_booking.status))
      | none => (true, none)

/-- One `SET field = %s` clause of `PostgresDriver.update` applied to a
stored `"booking"` row: replaces the named column of `row` by the value the
updated `entity` carries.  Field names outside the dataclass would make the
SQL fail; the driver is only ever called with dataclass field names. -/
def applyBookingField (row : Booking) (entity : Booking) (fname : String) :
    Booking :=
  if fname == "user_id" then { row with user_id := entity.user_id }
  else if fname == "table_id" then { row with table_id := entity.table_id }
  else if fname == "booking_date" then
    { row with booking_date := entity.booking_date }
  else if fname == "guest_count" then
    { row with guest_count := entity.guest_count }
  else if fname == "id" then { row with id := entity.id }
  else if fname == "duration_minutes" then
    { row with duration_minutes := entity.duration_minutes }
  else if fname == "status" then { row with status := entity.status }
  else if fname == "special_requests" then
    { row with special_requests := entity.special_requests }
  else if fname == "created_at" then
    { row with created_at := entity.created_at }
  else if fname == "updated_at" then
    { row with updated_at := entity.updated_at }
  else row

/-- Default field list of `PostgresDriver.update` when `update_fields` is
`None`: every dataclass field except `id` and `created_at`, in declaration
order. -/
def bookingDefaultUpdateFields : List String :=
  ["user_id", "table_id", "booking_date", "guest_count",
   "duration_minutes", "status", "special_requests", "updated_at"]

/-- Embeds `PostgresDriver.update` on table `"booking"`: `ValueError` when
the entity has no id; `UPDATE ... SET fields WHERE id = %s RETURNING *`
rewrites every stored row with that id column by column, and the entity is
refreshed from the first row returned; `dict(None)` fails when no row
matched. -/
def db_update_booking (db : Database) (entity : Booking)
    (update_fields : Option (List String)) :
    Except BackendError (Booking × Database) :=
  match entity.id with
  | none => .error (.db .missingId)
  | some eid =>
    let flds := match update_fields with
      | none => bookingDefaultUpdateFields
      | some fs => fs
    match db.bookings.find? (fun old => old.id == some eid) with
    | none => .error (.db .noRowReturned)
    | some old =>
      let returned := flds.foldl (fun acc f => applyBookingField acc entity f) old
      let rows := db.bookings.map (fun r =>
        if r.id == some eid then
          flds.foldl (fun acc f => applyBookingField acc entity f) r
        else r)
      .ok (returned, { db with bookings := rows })

/-- Embeds `Backend.create_user` (backend.py lines 28-49): uniqueness check
on the name via `get_user_by_name`, `ValueError` on a hit, otherwise a
`User` is built (uuid4 and `datetime.now()` modelled as the explicit
arguments `fresh_id`, `now`) and INSERTed, which appends the row. -/
def create_user (db : Database) (name phone email : String)
    (fresh_id : Nat) (now : Int) : Except BackendError (User × Database) :=
  match get_user_by_name db name with
  | some _ => .error (.duplicateName name)
  | none =>
    let user : User :=
      { name := name, phone := phone, email := email,
        id := fresh_id, created_at := now }
    .ok (user, { db with users := db.users ++ [user] })

/-- Embeds `Backend.create_booking` (backend.py lines 269-313): optional
availability check (with `exclude_booking_id` left at its default `None`),
`ValueError` carrying the reason when unavailable, otherwise a `Booking` is
built (uuid4 / `datetime.now()` as explicit `fresh_id` / `now`) and
INSERTed, appending the row.  No other validation is performed. -/
def create_booking (db : Database) (user_id table_id : Nat)
    (booking_date : Int) (guest_count : Int) (duration_minutes : Int)
    (status : String) (special_requests : String)
    (check_availability : Bool) (fresh_id : Nat) (now : Int) :
    Except BackendError (Booking × Database) :=
  let proceed : Except BackendError (Booking × Database) :=
    let booking : Booking :=
      { user_id := user_id, table_id := table_id,
        booking_date := booking_date, guest_count := guest_count,
        id := some fresh_id, duration_minutes := duration_minutes,
        status := status, special_requests := special_requests,
        created_at := now, updated_at := now }
    .ok (booking, { db with bookings := db.bookings ++ [booking] })
  if check_availability then
    let res := check_table_availability db table_id booking_date
      duration_minutes none
    if !res.1 then .error (.validation res.2) else proceed
  else proceed

/-- Embeds `Backend.update_booking` (backend.py lines 407-459): when
`check_availability` holds and the booking has an id, the prior stored row
is re-read; if date, duration or table changed, availability is re-checked
excluding the booking's own id and a conflict raises `ValueError`.  Then
`updated_at` is stamped with `now`, `"updated_at"` is appended to an
explicit field list, and the row is updated through the driver. -/
def update_booking (db : Database) (booking : Booking)
    (update_fields : Option (List String)) (check_availability : Bool)
    (now : Int) : Except BackendError (Booking × Database) :=
  let checkResult : Option (Bool × Option AvailReason) :=
    if check_availability then
      match booking.id with
      | none => none
      | some bid =>
        match get_booking_by_id db bid with
        | none => none
        | some existing_booking =>
          let time_changed :=
            existing_booking.booking_date != booking.booking_date ||
            existing_booking.duration_minutes != booking.duration_minutes
          let table_changed := existing_booking.table_id != booking.table_id
          if time_changed || table_changed then
            some (check_table_availability db booking.table_id
              booking.booking_date booking.duration_minutes booking.id)
          else none
    else none
  match checkResult with
  | some (false, reason) => .error (.validation reason)
  | _ =>
    let booking := { booking with updated_at := now }
    let flds : Option (List String) := match update_fields with
      | none => none
      | some fs =>
        if fs.contains "updated_at" then some fs
        else some (fs ++ ["updated_at"])
    db_update_booking db booking flds

/-- Embeds `Backend.confirm_booking` (backend.py lines 473-487): re-reads
the booking, unconditionally sets `status = "confirmed"` and updates the
`status` field; `none` in the result marks the Python `return None` when
the booking does not exist. -/
def confirm_booking (db : Database) (booking_id : Nat) (now : Int) :
    Except BackendError (Option Booking × Database) :=
  match get_booking_by_id db booking_id with
  | none => .ok (none, db)
  | some booking =>
    let booking := { booking with status := "confirmed" }
    match update_booking db booking (some ["status"]) true now with
    | .error e => .error e
    | .ok (b, db2) => .ok (some b, db2)

/-- Embeds `Backend.cancel_booking` (backend.py lines 489-503): same shape
as `confirm_booking` with `status = "cancelled"`. -/
def cancel_booking (db : Database) (booking_id : Nat) (now : Int) :
    Except BackendError (Option Booking × Database) :=
  match get_booking_by_id db booking_id with
  | none => .ok (none, db)
  | some booking =>
    let booking := { booking with status := "cancelled" }
    match update_booking db booking (some ["status"]) true now with
    | .error e => .error e
    | .ok (b, db2) => .ok (some b, db2)

/-- State-threaded form of `Backend.get_table_by_id`: a SELECT leaves the
stored rows as they are. -/
def get_table_by_id_st (db : Database) (table_id : Nat) :
    Option Table × Database :=
  (get_table_by_id db table_id, db)

/-- State-threaded form of `Backend.get_bookings_by_table`. -/
def get_bookings_by_table_st (db : Database) (table_id : Nat) :
    List Booking × Database :=
  (get_bookings_by_table db table_id, db)

/-- State-threaded form of `Backend.check_table_availability`: the same
statement sequence as `check_table_availability`, with the database state
passed explicitly through each persistence call the method issues (two
SELECTs and nothing else), so that the final state is visible. -/
def check_table_availability_st (db : Database) (table_id : Nat)
    (booking_date : Int) (duration_minutes : Int)
    (exclude_booking_id : Option Nat) :
    (Bool × Option AvailReason) × Database :=
  let step1 := get_table_by_id_st db table_id
  match step1.1 with
  | none => ((false, some .tableNotFound), step1.2)
  | some table =>
    if !table.is_available then ((false, some .tableUnavailable), step1.2)
    else
      let booking_end := booking_date + duration_minutes
      let step2 := get_bookings_by_table_st step1.2 table_id
      let active_bookings := step2.1.filter
        (isActiveExcluding exclude_booking_id)
      match active_bookings.find? (overlapsB booking_date booking_end) with
      | some existing_booking =>
        ((false, some (.conflict existing_booking.id existing_booking.status)),
         step2.2)
      | none => ((true, none), step2.2)

/-- Value held by a dataclass field descriptor's `default` or
`default_factory` slot: the `dataclasses.MISSING` sentinel when the user
supplied nothing, a literal `None`, or any other value/callable. -/
inductive PyDefault
  | missing
  | noneVal
  | value
deriving DecidableEq

/-- Python's `x is not None` on a default slot.  Note `MISSING is not None`
is `True`: the sentinel is an object distinct from `None`. -/
def PyDefault.isNotNone : PyDefault → Bool
  | .noneVal => false
  | _ => true

/-- The Python annotation of a dataclass field as far as
`_python_type_to_postgres` distinguishes them.  `literalStr` stands for a
`Literal[...]` annotation: its `get_origin` is non-None, the first arg (a
string instance) fails every type comparison and lands in the catch-all
VARCHAR branch. -/
inductive PyType
  | uuid
  | str
  | int
  | bool
  | datetime
  | float
  | literalStr
deriving DecidableEq

/-- Embeds `PostgresDriver._python_type_to_postgres`. -/
def python_type_to_postgres : PyType → String
  | .uuid => "UUID"
  | .str => "VARCHAR(255)"
  | .int => "INTEGER"
  | .bool => "BOOLEAN"
  | .datetime => "TIMESTAMP"
  | .float => "REAL"
  | .literalStr => "VARCHAR(255)"

/-- One dataclass field descriptor as `dataclasses.fields` reports it. -/
structure FieldDesc where
  name : String
  ftype : PyType
  default : PyDefault
  default_factory : PyDefault
deriving DecidableEq

/-- One column definition of the generated `CREATE TABLE` statement. -/
structure ColumnDef where
  name : String
  pg_type : String
  primary_key : Bool
  not_null : Bool
deriving DecidableEq

/-- Embeds the column-building loop of
`PostgresDriver.create_table_from_entity` (postgres_driver.py lines
140-174): a field named `id` gets PRIMARY KEY, any other field gets NOT
NULL only when `has_default` is false, where `has_default` is
`field.default is not None or field.default_factory is not None`.  The
method then executes the CREATE TABLE and returns `True`; the local
`primary_key` name it assigns is never read, and no branch fails for a
descriptor without an `id` field. -/
def create_table_from_entity (entity_fields : List FieldDesc) :
    List ColumnDef × Bool :=
  (entity_fields.map (fun f =>
    let pg_type := python_type_to_postgres f.ftype
    let is_primary_key := f.name == "id"
    let has_default := f.default.isNotNone || f.default_factory.isNotNone
    { name := f.name, pg_type := pg_type,
      primary_key := is_primary_key,
      not_null := !is_primary_key && !has_default }),
   true)

/-- Field descriptors of dataclass `User` (models.py): `name`, `phone`,
`email` have neither `default` nor `default_factory` (both slots hold
`MISSING`); `id` and `created_at` have a `default_factory`. -/
def userEntityFields : List FieldDesc :=
  [{ name := "name", ftype := .str, default := .missing,
     default_factory := .missing },
   { name := "phone", ftype := .str, default := .missing,
     default_factory := .missing },
   { name := "email", ftype := .str, default := .missing,
     default_factory := .missing },
   { name := "id", ftype := .uuid, default := .missing,
     default_factory := .value },
   { name := "created_at", ftype := .datetime, default := .missing,
     default_factory := .value }]

/-- A dataclass descriptor with no field named `id` (two required ints):
input showing that schema derivation never fails on a missing identifier. -/
def noIdEntityFields : List FieldDesc :=
  [{ name := "x", ftype := .int, default := .missing,
     default_factory := .missing },
   { name := "y", ftype := .int, default := .missing,
     default_factory := .missing }]

/-- Concrete fixtures: a restaurant with an available table 1, a switched
off table 2, one user, and on table 1 a pending booking `[1140, 1260)`, a
confirmed booking `[1500, 1560)` and a cancelled booking `[3000, 3060)`. -/
def tbl1 : Table :=
  { number := 1, capacity := 2, location := "window", id := 1,
    is_available := true }

def tbl2 : Table :=
  { number := 2, capacity := 4, location := "corner", id := 2,
    is_available := false }

def aliceU : User :=
  { name := "alice", phone := "111", email := "alice@example.com", id := 1,
    created_at := 0 }

def bk11 : Booking :=
  { user_id := 1, table_id := 1, booking_date := 1140, guest_count := 2,
    id := some 11, duration_minutes := 120, status := "pending",
    special_requests := "", created_at := 0, updated_at := 0 }

def bk12 : Booking :=
  { user_id := 1, table_id := 1, booking_date := 1500, guest_count := 2,
    id := some 12, duration_minutes := 60, status := "confirmed",
    special_requests := "", created_at := 0, updated_at := 0 }

def bk7 : Booking :=
  { user_id := 1, table_id := 1, booking_date := 3000, guest_count := 2,
    id := some 7, duration_minutes := 60, status := "cancelled",
    special_requests := "", created_at := 0, updated_at := 0 }

def db1 : Database :=
  { users := [aliceU], tables := [tbl1, tbl2], bookings := [bk11, bk12, bk7] }

/-- Membership in the `active_bookings` candidate list of
`check_table_availability`, unfolded down to the raw stored rows. -/
lemma mem_activeCandidates (db : Database) (table_id : Nat)
    (exclude : Option Nat) (b : Booking) :
    b ∈ (get_bookings_by_table db table_id).filter
        (isActiveExcluding exclude) ↔
      b ∈ db.bookings ∧ b.table_id = table_id ∧
        (b.status = "pending" ∨ b.status = "confirmed") ∧ b.id ≠ exclude := by
  simp [get_bookings_by_table, List.mem_filter, List.mem_insertionSort,
    isActiveExcluding, and_assoc]

/-- Boolean-to-propositional reading of the overlap test. -/
lemma overlapsB_eq_true (S E : Int) (b : Booking) :
    overlapsB S E b = true ↔
      S < b.booking_date + b.duration_minutes ∧ b.booking_date < E := by
  simp [overlapsB]

/-- C1: on an existing table whose availability flag is on, the request
`[S, S+D)` is reported unavailable iff some stored booking of that table
with status pending or confirmed, and id different from
`exclude_booking_id`, has `S < existingEnd` and `existingStart < S + D`;
in particular intervals that merely touch at an endpoint do not block. -/
theorem C1_unavailable_iff_active_overlap (db : Database) (table_id : Nat)
    (S D : Int) (exclude : Option Nat) (t : Table)
    (ht : get_table_by_id db table_id = some t)
    (hav : t.is_available = true) :
    (check_table_availability db table_id S D exclude).1 = false ↔
      ∃ b ∈ db.bookings, b.table_id = table_id ∧
        (b.status = "pending" ∨ b.status = "confirmed") ∧ b.id ≠ exclude ∧
        S < b.booking_date + b.duration_minutes ∧ b.booking_date < S + D := by
  unfold check_table_availability
  rw [ht]
  simp only [hav, Bool.not_true, Bool.false_eq_true, if_false]
  rcases hfind : ((get_bookings_by_table db table_id).filter
      (isActiveExcluding exclude)).find? (overlapsB S (S + D)) with _ | eb
  · simp only [hfind]
    rw [List.find?_eq_none] at hfind
    simp only [show ((true, (none : Option AvailReason)).1 = false) ↔ False by simp,
      false_iff]
    rintro ⟨b, hbmem, hbtid, hbst, hbex, hov1, hov2⟩
    exact hfind b ((mem_activeCandidates db table_id exclude b).mpr
        ⟨hbmem, hbtid, hbst, hbex⟩)
      ((overlapsB_eq_true S (S + D) b).mpr ⟨hov1, hov2⟩)
  · simp only [hfind]
    have hmem := List.mem_of_find?_eq_some hfind
    have hov := List.find?_some hfind
    rw [mem_activeCandidates] at hmem
    rw [overlapsB_eq_true] at hov
    simp only [show (((false, some (AvailReason.conflict eb.id eb.status)).1
        = false)) ↔ True by simp, true_iff]
    exact ⟨eb, hmem.1, hmem.2.1, hmem.2.2.1, hmem.2.2.2, hov.1, hov.2⟩

/-- Closed instance of C1: in `db1`, a request at 1170 for 60 minutes
collides with the pending booking `[1140, 1260)` of table 1. -/
theorem C1_witness :
    (check_table_availability db1 1 1170 60 none).1 = false :=
  (C1_unavailable_iff_active_overlap db1 1 1170 60 none tbl1 (by decide)
      (by decide)).mpr
    ⟨bk11, by decide, by decide, by decide, by decide, by decide, by decide⟩

/-- C3: availability fails closed — whenever the table id matches no stored
table, or the matched table's `is_available` flag is off, the check reports
unavailable with a present reason, and its result does not depend on the
stored bookings at all. -/
theorem C3_fails_closed (db : Database) (table_id : Nat) (S D : Int)
    (exclude : Option Nat)
    (h : get_table_by_id db table_id = none ∨
      ∃ t, get_table_by_id db table_id = some t ∧ t.is_available = false) :
    ((check_table_availability db table_id S D exclude).1 = false ∧
      (check_table_availability db table_id S D exclude).2.isSome = true) ∧
    ∀ bs : List Booking,
      check_table_availability { db with bookings := bs } table_id S D
          exclude =
        check_table_availability db table_id S D exclude := by
  have htab : ∀ bs : List Booking,
      get_table_by_id { db with bookings := bs } table_id =
        get_table_by_id db table_id := fun _ => rfl
  rcases h with h | ⟨t, ht, hf⟩
  · refine ⟨?_, ?_⟩
    · unfold check_table_availability
      rw [h]
      exact ⟨rfl, rfl⟩
    · intro bs
      unfold check_table_availability
      rw [htab bs, h]
  · refine ⟨?_, ?_⟩
    · unfold check_table_availability
      rw [ht]
      simp [hf]
    · intro bs
      unfold check_table_availability
      rw [htab bs, ht]
      simp [hf]

/-- Closed instance of C3: in `db1`, table id 5 does not exist and table 2
is switched off; both requests fail closed with a reason present. -/
theorem C3_witness :
    (check_table_availability db1 5 0 60 none).1 = false ∧
    (check_table_availability db1 2 0 60 none).2.isSome = true :=
  ⟨((C3_fails_closed db1 5 0 60 none (Or.inl (by decide))).1).1,
   ((C3_fails_closed db1 2 0 60 none
      (Or.inr ⟨tbl2, by decide, by decide⟩)).1).2⟩

/-- Effect of a status-only update through `Backend.update_booking` on a
stored booking: no availability check fires (date, duration and table are
unchanged), `updated_at` is stamped, and every stored row carrying the
booking's id gets the new status. -/
lemma status_update_ok (db : Database) (bid : Nat) (b : Booking)
    (st : String) (now : Int)
    (hb : get_booking_by_id db bid = some b) :
    update_booking db { b with status := st } (some ["status"]) true now =
      .ok ({ b with status := st, updated_at := now },
        { db with bookings := db.bookings.map (fun r =>
            if r.id == some bid then { r with status := st, updated_at := now }
            else r) }) := by
  have hid : b.id = some bid := by
    have hp := List.find?_some hb
    simpa using hp
  have hb' : db.bookings.find? (fun old => old.id == some bid) = some b := hb
  unfold update_booking
  rw [show ({ b with status := st } : Booking).id = some bid from hid]
  simp only [hb, bne_self_eq_false, Bool.or_self, Bool.false_eq_true,
    if_false, if_true]
  unfold db_update_booking
  simp [hb', applyBookingField, hid]

/-- C2 counterexample: in `db1`, booking 7 is stored with status
`cancelled`, yet `confirm_booking` moves it to `confirmed`, both in the
returned record and in the store — cancelled is not terminal. -/
theorem C2_counterexample :
    (get_booking_by_id db1 7).map Booking.status = some "cancelled" ∧
    (match confirm_booking db1 7 50 with
     | .ok (r, _) => r.map Booking.status
     | .error _ => none) = some "confirmed" ∧
    (match confirm_booking db1 7 50 with
     | .ok (_, db2) => (get_booking_by_id db2 7).map Booking.status
     | .error _ => none) = some "confirmed" := by decide

/-- C2 amended: `confirm_booking` maps any stored status (pending,
confirmed or cancelled) to `confirmed`, and `cancel_booking` maps any
stored status to `cancelled`; so cancel on a cancelled booking keeps the
value `cancelled`, while confirm on a cancelled booking resurrects it. -/
theorem C2_amended_transitions (db : Database) (bid : Nat) (now : Int)
    (b : Booking) (hb : get_booking_by_id db bid = some b) :
    (∃ b2 db2, confirm_booking db bid now = .ok (some b2, db2) ∧
      b2.status = "confirmed") ∧
    (∃ b2 db2, cancel_booking db bid now = .ok (some b2, db2) ∧
      b2.status = "cancelled") := by
  constructor
  · have hc : confirm_booking db bid now =
        .ok (some { b with status := "confirmed", updated_at := now },
          { db with bookings := db.bookings.map (fun r =>
              if r.id == some bid then
                { r with status := "confirmed", updated_at := now }
              else r) }) := by
      unfold confirm_booking
      simp only [hb]
      rw [status_update_ok db bid b "confirmed" now hb]
    exact ⟨_, _, hc, rfl⟩
  · have hc : cancel_booking db bid now =
        .ok (some { b with status := "cancelled", updated_at := now },
          { db with bookings := db.bookings.map (fun r =>
              if r.id == some bid then
                { r with status := "cancelled", updated_at := now }
              else r) }) := by
      unfold cancel_booking
      simp only [hb]
      rw [status_update_ok db bid b "cancelled" now hb]
    exact ⟨_, _, hc, rfl⟩

/-- Closed instance of the amended C2, at the cancelled booking 7 of
`db1`. -/
theorem C2_amended_witness :
    ∃ b2 db2, confirm_booking db1 7 50 = .ok (some b2, db2) ∧
      b2.status = "confirmed" :=
  (C2_amended_transitions db1 7 50 bk7 (by decide)).1

/-- One argument tuple for a `create_user` call, with the generated uuid4
and `datetime.now()` made explicit. -/
structure CreateUserReq where
  name : String
  phone : String
  email : String
  fresh_id : Nat
  now : Int
deriving DecidableEq

/-- Runs a sequence of `create_user` calls, keeping the previous store when
a call raises (the raised `ValueError` aborts before any INSERT). -/
def runCreateUsers (db : Database) (reqs : List CreateUserReq) : Database :=
  reqs.foldl (fun acc r =>
    match create_user acc r.name r.phone r.email r.fresh_id r.now with
    | .ok (_, db2) => db2
    | .error _ => acc) db

/-- Distinctness of stored user names. -/
def userNamesDistinct (db : Database) : Prop :=
  db.users.Pairwise (fun a b => a.name ≠ b.name)

/-- A single successful or failing `create_user` call preserves
distinctness of names. -/
lemma runCreateUsers_step (db : Database) (r : CreateUserReq)
    (h : userNamesDistinct db) :
    userNamesDistinct (match create_user db r.name r.phone r.email
        r.fresh_id r.now with
      | .ok (_, db2) => db2
      | .error _ => db) := by
  rcases hname : get_user_by_name db r.name with _ | u
  · have hnone : ∀ u ∈ db.users, u.name ≠ r.name := by
      intro u hu
      have := List.find?_eq_none.mp hname u hu
      simpa using this
    simp only [create_user, hname]
    unfold userNamesDistinct at h ⊢
    rw [List.pairwise_append]
    refine ⟨h, by simp, ?_⟩
    intro a ha b hb
    rw [List.mem_singleton] at hb
    subst hb
    exact hnone a ha
  · simp only [create_user, hname]
    exact h

/-- C4: no two successfully created users share a name — a `create_user`
call whose name is already stored fails with the uniqueness `ValueError`
and writes nothing; a call with a fresh name appends exactly one `User`
carrying the generated identifier and creation timestamp; and any sequence
of calls preserves distinctness of stored names. -/
theorem C4_user_name_uniqueness (db : Database) (reqs : List CreateUserReq)
    (name phone email : String) (fid : Nat) (now : Int) :
    ((∃ u ∈ db.users, u.name = name) →
      create_user db name phone email fid now =
        .error (.duplicateName name)) ∧
    ((∀ u ∈ db.users, u.name ≠ name) →
      create_user db name phone email fid now =
        .ok ({ name := name, phone := phone, email := email, id := fid,
               created_at := now },
             { db with users := db.users ++
               [{ name := name, phone := phone, email := email, id := fid,
                  created_at := now }] })) ∧
    (userNamesDistinct db → userNamesDistinct (runCreateUsers db reqs)) := by
  refine ⟨?_, ?_, ?_⟩
  · rintro ⟨u, hu, hun⟩
    rcases hname : get_user_by_name db name with _ | v
    · exfalso
      have := List.find?_eq_none.mp hname u hu
      simp [hun] at this
    · simp [create_user, hname]
  · intro hfresh
    have hname : get_user_by_name db name = none := by
      apply List.find?_eq_none.mpr
      intro u hu
      simpa using hfresh u hu
    simp [create_user, hname]
  · induction reqs generalizing db with
    | nil => exact fun h => h
    | cons r rs ih =>
      intro h
      have hstep := runCreateUsers_step db r h
      unfold runCreateUsers
      rw [List.foldl_cons]
      exact ih _ hstep

/-- Closed instance of C4 at `db1`: creating a second `"alice"` fails with
the uniqueness violation, a fresh name is appended. -/
theorem C4_witness :
    create_user db1 "alice" "222" "b@example.com" 9 5 =
      .error (.duplicateName "alice") :=
  (C4_user_name_uniqueness db1 [] "alice" "222" "b@example.com" 9 5).1
    ⟨aliceU, by decide, by decide⟩

/-- C5: for a stored booking updated with `check_availability=true`, a
change of table, start time or duration repeats the availability check with
`exclude_booking_id` equal to the booking's own id, failing with the
conflict `ValueError` iff that check reports unavailable; an update that
changes none of the three skips the check and succeeds. -/
theorem C5_update_self_exclusion (db : Database) (booking : Booking)
    (uf : Option (List String)) (now : Int) (bid : Nat) (prior : Booking)
    (hid : booking.id = some bid)
    (hprior : get_booking_by_id db bid = some prior) :
    ((prior.booking_date ≠ booking.booking_date ∨
      prior.duration_minutes ≠ booking.duration_minutes ∨
      prior.table_id ≠ booking.table_id) →
      ((check_table_availability db booking.table_id booking.booking_date
          booking.duration_minutes (some bid)).1 = false →
        update_booking db booking uf true now =
          .error (.validation (check_table_availability db booking.table_id
            booking.booking_date booking.duration_minutes (some bid)).2)) ∧
      ((check_table_availability db booking.table_id booking.booking_date
          booking.duration_minutes (some bid)).1 = true →
        ∃ b2 db2, update_booking db booking uf true now = .ok (b2, db2))) ∧
    ((prior.booking_date = booking.booking_date ∧
      prior.duration_minutes = booking.duration_minutes ∧
      prior.table_id = booking.table_id) →
      ∃ b2 db2, update_booking db booking uf true now = .ok (b2, db2)) := by
  have hprior' : db.bookings.find? (fun old => old.id == some bid) =
      some prior := hprior
  have hproceed : ∀ fl, ∃ b2 db2,
      db_update_booking db { booking with id := some bid, updated_at := now }
          fl =
        .ok (b2, db2) := by
    intro fl
    unfold db_update_booking
    simp only [hprior']
    exact ⟨_, _, rfl⟩
  constructor
  · intro hch
    have hcondT : ((prior.booking_date != booking.booking_date ||
        prior.duration_minutes != booking.duration_minutes) ||
        prior.table_id != booking.table_id) = true := by
      rcases hch with h | h | h <;> simp [bne_iff_ne, h]
    constructor
    · intro hfalse
      unfold update_booking
      rw [hid]
      simp only [hprior, hcondT, if_true]
      rcases hres : check_table_availability db booking.table_id
          booking.booking_date booking.duration_minutes (some bid)
        with ⟨avail, reason⟩
      rw [hres] at hfalse
      simp only at hfalse
      subst hfalse
      rfl
    · intro htrue
      unfold update_booking
      rw [hid]
      simp only [hprior, hcondT, if_true]
      rcases hres : check_table_availability db booking.table_id
          booking.booking_date booking.duration_minutes (some bid)
        with ⟨avail, reason⟩
      rw [hres] at htrue
      simp only at htrue
      subst htrue
      exact hproceed _
  · intro hunch
    have hcondF : ((prior.booking_date != booking.booking_date ||
        prior.duration_minutes != booking.duration_minutes) ||
        prior.table_id != booking.table_id) = false := by
      simp [bne_iff_ne, hunch.1, hunch.2.1, hunch.2.2]
    unfold update_booking
    rw [hid]
    simp only [hprior, hcondF, Bool.false_eq_true, if_false]
    exact hproceed _

/-- A shifted copy of booking 11: same table and duration, start moved to
1450 so that it overlaps the confirmed booking 12 at `[1500, 1560)`. -/
def bk11moved : Booking := { bk11 with booking_date := 1450 }

/-- Closed instance of C5 at `db1`: shifting booking 11 onto booking 12's
interval makes `update_booking` fail with the conflict reason. -/
theorem C5_witness :
    update_booking db1 bk11moved none true 9 =
      .error (.validation (check_table_availability db1 1 1450 120
        (some 11)).2) :=
  ((C5_update_self_exclusion db1 bk11moved none 9 11 bk11 (by decide)
      (by decide)).1 (Or.inl (by decide))).1 (by decide)

/-- When the table exists, is switched on, and no stored active booking of
the table overlaps `[S, S+D)`, the availability check reports available. -/
lemma check_no_active_overlap (db2 : Database) (tid : Nat) (S D : Int)
    (t : Table) (ht : get_table_by_id db2 tid = some t)
    (hav : t.is_available = true)
    (hnone : ∀ x ∈ db2.bookings, x.table_id = tid →
      (x.status = "pending" ∨ x.status = "confirmed") → x.id ≠ none →
      ¬ (S < x.booking_date + x.duration_minutes ∧ x.booking_date < S + D)) :
    check_table_availability db2 tid S D none = (true, none) := by
  unfold check_table_availability
  rw [ht]
  simp only [hav, Bool.not_true, Bool.false_eq_true, if_false]
  rcases hfind : ((get_bookings_by_table db2 tid).filter
      (isActiveExcluding none)).find? (overlapsB S (S + D)) with _ | eb
  · simp only [hfind]
  · exfalso
    have hmem := (mem_activeCandidates db2 tid none eb).mp
      (List.mem_of_find?_eq_some hfind)
    have hov := (overlapsB_eq_true S (S + D) eb).mp (List.find?_some hfind)
    exact hnone eb hmem.1 hmem.2.1 hmem.2.2.1 hmem.2.2.2 hov

/-- C7: cancelling a stored booking releases its slot — after the
cancellation succeeds, the same table, start and duration pass the
availability check, and `create_booking` with the check on persists a new
booking there, provided no other active booking overlaps the interval. -/
theorem C7_cancel_releases_slot (db : Database) (bid : Nat) (now : Int)
    (b : Booking) (hb : get_booking_by_id db bid = some b)
    (t : Table) (ht : get_table_by_id db b.table_id = some t)
    (hav : t.is_available = true)
    (hother : ∀ b2 ∈ db.bookings, b2.table_id = b.table_id →
      (b2.status = "pending" ∨ b2.status = "confirmed") →
      b2.id ≠ some bid →
      ¬ (b.booking_date < b2.booking_date + b2.duration_minutes ∧
         b2.booking_date < b.booking_date + b.duration_minutes)) :
    ∃ b2 db2, cancel_booking db bid now = .ok (some b2, db2) ∧
      (check_table_availability db2 b.table_id b.booking_date
        b.duration_minutes none).1 = true ∧
      ∀ uid gc st sr fid now2, ∃ nb db3,
        create_booking db2 uid b.table_id b.booking_date gc
          b.duration_minutes st sr true fid now2 = .ok (nb, db3) := by
  have hc : cancel_booking db bid now =
      .ok (some { b with status := "cancelled", updated_at := now },
        { db with bookings := db.bookings.map (fun r =>
            if r.id == some bid then
              { r with status := "cancelled", updated_at := now }
            else r) }) := by
    unfold cancel_booking
    simp only [hb]
    rw [status_update_ok db bid b "cancelled" now hb]
  have ht2 : get_table_by_id
      { db with bookings := db.bookings.map (fun r =>
          if r.id == some bid then
            { r with status := "cancelled", updated_at := now }
          else r) } b.table_id = some t := ht
  have hcheckEq : check_table_availability
      { db with bookings := db.bookings.map (fun r =>
          if r.id == some bid then
            { r with status := "cancelled", updated_at := now }
          else r) } b.table_id b.booking_date b.duration_minutes none =
      (true, none) := by
    apply check_no_active_overlap _ _ _ _ t ht2 hav
    intro x hx hxt hxst hxid
    obtain ⟨r, hr, hfr⟩ := List.mem_map.mp hx
    by_cases hcase : (r.id == some bid) = true
    · rw [if_pos hcase] at hfr
      rw [← hfr] at hxst
      rcases hxst with h | h <;> simp at h
    · rw [if_neg hcase] at hfr
      subst hfr
      exact hother r hr hxt hxst (by simpa using hcase)
  refine ⟨_, _, hc, ?_, ?_⟩
  · rw [hcheckEq]
  · intro uid gc st sr fid now2
    unfold create_booking
    rw [hcheckEq]
    exact ⟨_, _, rfl⟩

/-- Closed instance of C7 at `db1`: cancelling booking 11 frees
`[1140, 1260)` on table 1 (booking 12 at `[1500, 1560)` does not
overlap). -/
theorem C7_witness :
    ∃ b2 db2, cancel_booking db1 11 9 = .ok (some b2, db2) ∧
      (check_table_availability db2 1 1140 120 none).1 = true := by
  obtain ⟨b2, db2, h1, h2, -⟩ :=
    C7_cancel_releases_slot db1 11 9 bk11 (by decide) tbl1 (by decide)
      (by decide) (by decide)
  exact ⟨b2, db2, h1, h2⟩

/-- C8: the availability check is read-only — threading the stored state
through every persistence call the method makes (its two SELECTs), the
final state equals the initial one, every stored user, table and booking
included, and the returned verdict is the pure one. -/
theorem C8_check_availability_read_only (db : Database) (table_id : Nat)
    (S D : Int) (exclude : Option Nat) :
    ((check_table_availability_st db table_id S D exclude).2 = db ∧
      (check_table_availability_st db table_id S D exclude).2.users =
        db.users ∧
      (check_table_availability_st db table_id S D exclude).2.tables =
        db.tables ∧
      (check_table_availability_st db table_id S D exclude).2.bookings =
        db.bookings) ∧
    (check_table_availability_st db table_id S D exclude).1 =
      check_table_availability db table_id S D exclude := by
  have hmain : (check_table_availability_st db table_id S D exclude).2 = db ∧
      (check_table_availability_st db table_id S D exclude).1 =
        check_table_availability db table_id S D exclude := by
    unfold check_table_availability_st check_table_availability
      get_table_by_id_st get_bookings_by_table_st
    rcases h : get_table_by_id db table_id with _ | t
    · simp [h]
    · by_cases hv : t.is_available = true
      · simp only [h, hv, Bool.not_true, Bool.false_eq_true, if_false]
        rcases hfind : ((get_bookings_by_table db table_id).filter
            (isActiveExcluding exclude)).find?
            (overlapsB S (S + D)) with _ | eb
        · simp [hfind]
        · simp [hfind]
      · have hv' : t.is_available = false := by simpa using hv
        simp [h, hv']
  exact ⟨⟨hmain.1, by rw [hmain.1], by rw [hmain.1], by rw [hmain.1]⟩,
    hmain.2⟩

/-- Boolean success test for an `Except` result. -/
def exceptIsOk {ε α : Type} : Except ε α → Bool
  | .ok _ => true
  | .error _ => false

/-- C9: `create_booking` validates neither `duration_minutes` nor
`guest_count` — with the check off it persists any values; a zero-duration
request starting exactly at an existing booking's start fails the strict
overlap test against it; and whenever the availability check passes, the
booking is persisted as given, whatever the signs of duration and guest
count. -/
theorem C9_no_positivity_validation (db : Database) (uid tid : Nat)
    (S gc D : Int) (status sr : String) (fid : Nat) (now : Int) :
    (∃ bk db2, create_booking db uid tid S gc D status sr false fid now =
        .ok (bk, db2) ∧ db2.bookings = db.bookings ++ [bk] ∧
        bk.duration_minutes = D ∧ bk.guest_count = gc) ∧
    (∀ b2 : Booking, b2.booking_date = S → overlapsB S (S + 0) b2 = false) ∧
    ((check_table_availability db tid S D none).1 = true →
      ∃ bk db2, create_booking db uid tid S gc D status sr true fid now =
        .ok (bk, db2) ∧ db2.bookings = db.bookings ++ [bk]) := by
  refine ⟨⟨_, _, rfl, rfl, rfl, rfl⟩, ?_, ?_⟩
  · intro b2 hb2
    simp [overlapsB, hb2]
  · intro hck
    unfold create_booking
    rcases hres : check_table_availability db tid S D none with ⟨avail, reason⟩
    rw [hres] at hck
    simp only at hck
    subst hck
    exact ⟨_, _, rfl, rfl⟩

/-- Closed instance of C9 at `db1`: a booking with duration 0 and guest
count 0 starting exactly at booking 11's start time 1140 is accepted and
persisted. -/
theorem C9_witness :
    exceptIsOk (create_booking db1 1 1 1140 0 0 "pending" "" true 77 4) =
      true := by
  obtain ⟨bk, db2, h, -⟩ :=
    (C9_no_positivity_validation db1 1 1 1140 0 0 "pending" "" 77 4).2.2
      (by decide)
  rw [h]
  rfl

/-- C10: when the updated booking's id is absent, or matches no stored
row, `update_booking` with `check_availability=true` skips the availability
check entirely — it can never fail with the conflict `ValueError`, and the
failure it does produce comes from the persistence layer's update on the
missing row. -/
theorem C10_missing_booking_skips_check (db : Database) (booking : Booking)
    (uf : Option (List String)) (now : Int) :
    (booking.id = none →
      update_booking db booking uf true now = .error (.db .missingId)) ∧
    (∀ bid, booking.id = some bid → get_booking_by_id db bid = none →
      update_booking db booking uf true now =
        .error (.db .noRowReturned)) ∧
    ((booking.id = none ∨
      ∃ bid, booking.id = some bid ∧ get_booking_by_id db bid = none) →
      ∀ r, update_booking db booking uf true now ≠
        .error (.validation r)) := by
  have h1 : booking.id = none →
      update_booking db booking uf true now = .error (.db .missingId) := by
    intro hid
    unfold update_booking
    rw [hid]
    unfold db_update_booking
    rfl
  have h2 : ∀ bid, booking.id = some bid → get_booking_by_id db bid = none →
      update_booking db booking uf true now =
        .error (.db .noRowReturned) := by
    intro bid hid hn
    have hn' : db.bookings.find? (fun old => old.id == some bid) = none := hn
    unfold update_booking
    rw [hid]
    simp only [hn]
    unfold db_update_booking
    simp only [hn']
    rfl
  refine ⟨h1, h2, ?_⟩
  rintro (hid | ⟨bid, hid, hn⟩) r
  · rw [h1 hid]
    simp
  · rw [h2 bid hid hn]
    simp

/-- A stray update target: booking 11's data carrying the unknown id 99. -/
def bk99 : Booking := { bk11 with id := some 99 }

/-- Closed instance of C10 at `db1`: updating a booking whose id 99 is
stored nowhere fails in the persistence layer, not with a conflict. -/
theorem C10_witness :
    update_booking db1 bk99 none true 5 = .error (.db .noRowReturned) :=
  (C10_missing_booking_skips_check db1 bk99 none 5).2.1 99 (by decide)
    (by decide)

/-- C6 evaluation at the failing inputs: on the `User` descriptor the `id`
column is the primary key, but no column is NOT NULL even though `name`,
`phone` and `email` carry no default — `has_default` tests
`field.default is not None`, which holds of the `MISSING` sentinel; and on
a descriptor with no `id` field the derivation still reports success and
emits no primary-key column instead of failing. -/
theorem C6_schema_derivation_eval :
    ((create_table_from_entity userEntityFields).1.map
        ColumnDef.primary_key = [false, false, false, true, false]) ∧
    ((create_table_from_entity userEntityFields).1.map ColumnDef.not_null =
      [false, false, false, false, false]) ∧
    ((create_table_from_entity noIdEntityFields).2 = true ∧
      (create_table_from_entity noIdEntityFields).1.map
        ColumnDef.primary_key = [false, false]) := by decide

end BookingTable
